import Mathlib

/-!
Verification of the ReAct agent control core of `aipr_py_agent`
(`agent/agent.py`, `cli/ui.py`, `tools/*.py`), shallowly embedded in Lean.

The embedding mirrors the source:
  * the response-extraction line
    `json_text = response.text.strip().replace("```json", "").replace("```", "").strip()`
    (agent.py line 72) is modelled at character level (`extractJson`);
  * the deserialized payload of one model turn is modelled by its JSON
    shape (`ModelResponse`): the text fails `json.loads` (`parseFail`),
    parses to a non-object (`nonObject` — `.get` on it at line 79 then
    raises `AttributeError` outside any `try`), or parses to an object
    (`Payload`), recording which of the keys `thought` / `action` /
    `final_answer` are present; an `"action"` value may itself be a
    non-object (then line 88 raises), its `"tool"` value a non-string
    (an unhashable value makes the `in` test at line 91 raise), and its
    `"args"` value a non-object (then the `**` unpacking at lines
    99/102 raises);
  * one iteration of the `for i in range(max_iterations)` loop
    (agent.py lines 64-109) is `stepIter`; the loop itself is `runLoop`,
    and `ReActAgent.run` instantiates it at `max_iterations = 10`
    (agent.py line 62);
  * the external world (tool side effects) is an oracle
    `world : String → List (String × String) → String` giving the string
    each successful tool call returns, and the operator's confirmations
    are an oracle `gates : Nat → Bool` consumed one entry per call to
    `tui.get_user_confirmation`;
  * Python's keyword-argument binding at `tool_function(**tool_args)`
    (agent.py lines 99 and 102) is `bindOk`; a mapping that does not
    match the tool's signature raises `TypeError`, modelled — like the
    other uncaught exceptions above — as the `.error` result of the
    run, since there is no `try` around the dispatch;
  * `TUI.get_user_confirmation` (ui.py lines 15-26) is modelled over the
    operator's raw input stream, with `rich.Prompt.ask`'s documented
    behaviour for `choices=["y","n"], default="n"`: empty input resolves
    to the default, input outside the choices re-prompts.
-/

/-! ### Response extraction (agent.py line 72) -/

/-- Python `str.replace(pat, "")` with a nonempty pattern: delete every
occurrence of `pat`, scanning left to right, non-overlapping. -/
def stripAll (pat : List Char) (l : List Char) : List Char :=
  match l with
  | [] => []
  | c :: rest =>
    if pat ≠ [] ∧ pat.isPrefixOf (c :: rest)
    then stripAll pat (rest.drop (pat.length - 1))
    else c :: stripAll pat rest
termination_by l.length
decreasing_by
  · simp only [List.length_drop, List.length_cons]; omega
  · simp only [List.length_cons]; omega

/-- Python `str.strip()`: drop whitespace from both ends. -/
def trimChars (l : List Char) : List Char :=
  ((l.dropWhile Char.isWhitespace).reverse.dropWhile Char.isWhitespace).reverse

/-- The three-backtick fence marker. -/
def fence : List Char := '`' :: '`' :: '`' :: []

/-- The the `json`-tagged opening fence marker. -/
def fenceJson : List Char := '`' :: '`' :: '`' :: 'j' :: 's' :: 'o' :: 'n' :: []

/-- agent.py line 72:
`response.text.strip().replace("```json", "").replace("```", "").strip()`,
at character level. -/
def extractPayloadChars (l : List Char) : List Char :=
  trimChars (stripAll fence (stripAll fenceJson (trimChars l)))

/-- agent.py line 72, on strings. -/
def extractJson (raw : String) : String :=
  String.mk (extractPayloadChars raw.toList)

/-! ### Data model of one parsed model turn -/

/-- The value found under the `"tool"` key of an action object
(`action.get("tool")`, agent.py line 88): a string; absent (Python
`None`, rendered `'None'` in messages); some other hashable JSON
primitive (number, bool, null — carried here by its Python rendering,
which messages display); or an unhashable container (list, object), on
which the membership test `tool_name not in self.tools` at line 91
raises `TypeError`. -/
inductive ToolVal where
  | str (t : String)
  | missing
  | otherHashable (shown : String)
  | unhashable
deriving DecidableEq, Repr

/-- The f-string rendering of a tool value in the observations of lines
92 and 96.  An unhashable value is never rendered: line 91 raises
first. -/
def ToolVal.displayName : ToolVal → String
  | .str t => t
  | .missing => "None"
  | .otherHashable shown => shown
  | .unhashable => ""

/-- The value found under the `"args"` key (`action.get("args", {})`,
line 89): an argument object (values modelled as strings), or any
non-object JSON value, on which the `**` unpacking in
`tool_function(**tool_args)` raises `TypeError` (lines 99/102). -/
inductive ArgsVal where
  | obj (kvs : List (String × String))
  | nonObject
deriving DecidableEq, Repr

/-- An `"action"` value that is itself a JSON object: its `"tool"` and
`"args"` values. -/
structure AgentAction where
  tool : ToolVal
  args : ArgsVal
deriving DecidableEq, Repr

/-- The value of an `"action"` key: an object, or any non-object JSON
value, on which `action.get("tool")` raises `AttributeError`
(line 88). -/
inductive ActionVal where
  | obj (a : AgentAction)
  | nonObject
deriving DecidableEq, Repr

/-- A model response that deserialized to a JSON object: which of the
top-level keys are present, and their values.  (`thought` is printed and
otherwise ignored by the loop.) -/
structure Payload where
  thought : Option String
  action : Option ActionVal
  final_answer : Option String
deriving DecidableEq, Repr

/-- One raw model response, after extraction and `json.loads`:
`parseFail` models text on which `json.loads` raises (caught at lines
74-77); `nonObject` a successful parse to a non-object value (list,
string, number, bool, null), on which `parsed_response.get("thought")`
at line 79 raises `AttributeError` outside any `try`; `obj` a JSON
object. -/
inductive ModelResponse where
  | parseFail
  | nonObject
  | obj (p : Payload)
deriving DecidableEq, Repr

/-! ### Tool registry (agent.py lines 30-37) and tool signatures -/

/-- The keys of `self.tools` (agent.py lines 30-36). -/
def registryNames : List String :=
  ["search_web", "list_files", "read_file", "write_file", "execute_shell_command"]

/-- `self.dangerous_tools` (agent.py line 37). -/
def dangerousTools : List String :=
  ["write_file", "execute_shell_command"]

/-- Parameter lists of the registered tool functions, from their `def`
lines: each parameter name with whether it has a default value
(`tools/web.py`, `tools/file_system.py`, `tools/shell.py`). -/
def sigOf : String → List (String × Bool)
  | "search_web" => [("query", false)]
  | "list_files" => [("directory", true)]
  | "read_file" => [("filepath", false)]
  | "write_file" => [("filepath", false), ("content", false)]
  | "execute_shell_command" => [("command", false)]
  | _ => []

/-- Python keyword binding `f(**args)` succeeds iff every supplied key
names a parameter and every parameter without a default is supplied;
otherwise the call raises `TypeError`. -/
def bindOk (params : List (String × Bool)) (args : List (String × String)) : Bool :=
  args.all (fun kv => params.any (fun p => p.1 = kv.1)) &&
  params.all (fun p => p.2 || args.any (fun kv => kv.1 = p.1))

/-! ### The loop (agent.py lines 62-111) -/

/-- An exception escaping the loop: nothing after line 77 is inside a
`try`, so each of these terminates `run`. -/
inductive PyError where
  /-- the kwargs do not match the tool's parameters: the call at lines
  99/102 raises `TypeError`. -/
  | typeError (tool : String) (args : List (String × String))
  /-- `.get` called on a non-object: line 79 (non-object response) or
  line 88 (non-object action value) raises `AttributeError`. -/
  | attributeError
  /-- `tool_name not in self.tools` with an unhashable tool value
  (line 91) raises `TypeError`. -/
  | typeErrorUnhashable
  /-- `**` applied to a non-mapping args value (lines 99/102) raises
  `TypeError`. -/
  | typeErrorArgsNotMapping (tool : String)
deriving DecidableEq, Repr

/-- The audit record of one loop iteration. -/
inductive TurnRecord where
  /-- `json.loads` failed; corrective prompt sent (lines 74-77). -/
  | parseError
  /-- payload had neither `final_answer` nor `action` (lines 107-109). -/
  | invalidShape
  /-- payload had `final_answer`; the run returns it (lines 83-84). -/
  | finalAnswer (ans : String)
  /-- requested tool not in the registry (lines 91-92). -/
  | unknownTool (obs : String)
  /-- dangerous tool, operator denied (lines 95-96). -/
  | denied (tool : String) (args : ArgsVal) (obs : String)
  /-- tool executed; `approved = some b` iff the confirmation gate was
  consulted and answered `b` (lines 97-102). -/
  | executed (tool : String) (args : ArgsVal)
      (approved : Option Bool) (obs : String)
deriving DecidableEq, Repr

/-- Loop-carried state: `i` model calls made so far, `gi` confirmation
prompts shown so far, and `next_prompt`, the message that will be
appended to the chat session on the next `send_message`. -/
structure LoopState where
  i : Nat
  gi : Nat
  nextPrompt : String
deriving DecidableEq, Repr

/-- Outcome of one iteration body. -/
inductive StepOut where
  | done (ans : String)
  | crash (e : PyError)
  | next (rec : TurnRecord) (s : LoopState)
deriving DecidableEq, Repr

/-- Corrective prompt sent after a `json.loads` failure (line 76). -/
def invalidJsonPrompt : String :=
  "Invalid JSON format. Please check your response and provide it in the correct JSON format as specified in the instructions."

/-- Corrective prompt sent after a payload with neither key (line 109). -/
def invalidShapePrompt : String :=
  "Your response was invalid. It must contain either a 'final_answer' or an 'action' in the specified JSON format."

/-- Sentinel returned when the iteration budget runs out (line 111). -/
def exhaustedMessage : String :=
  "Agent could not complete the task within the maximum number of iterations."

/-- The body of one iteration of the loop (agent.py lines 64-109), for a
given world oracle, gate oracle, current state and current model
response. -/
def stepIter (world : String → List (String × String) → String)
    (gates : Nat → Bool) (s : LoopState) (resp : ModelResponse) : StepOut :=
  match resp with
  | .parseFail =>
      -- lines 74-77: parse failure is caught, corrective prompt, continue
      .next .parseError ⟨s.i + 1, s.gi, invalidJsonPrompt⟩
  | .nonObject =>
      -- line 79: `.get` on a non-object, uncaught AttributeError
      .crash .attributeError
  | .obj p =>
    match p.final_answer with
    | some fa => .done fa  -- lines 83-84, checked before "action"
    | none =>
      match p.action with
      | some .nonObject =>
          -- line 88: `.get` on a non-object action value, uncaught
          .crash .attributeError
      | some (.obj a) =>
        match a.tool with
        | .unhashable =>
            -- line 91: `tool_name not in self.tools` on an unhashable value
            .crash .typeErrorUnhashable
        | .str t =>
          if t ∈ registryNames then
            if t ∈ dangerousTools then
              -- line 95: consult the gate afresh on every dispatch
              if gates s.gi then
                match a.args with
                | .nonObject => .crash (.typeErrorArgsNotMapping t)
                | .obj kvs =>
                  if bindOk (sigOf t) kvs then
                    .next (.executed t a.args (some true) (world t kvs))
                      ⟨s.i + 1, s.gi + 1, "Observation: " ++ world t kvs⟩
                  else .crash (.typeError t kvs)
              else
                .next (.denied t a.args
                    ("User denied permission for tool '" ++ t ++ "'."))
                  ⟨s.i + 1, s.gi + 1, "Observation: " ++
                    ("User denied permission for tool '" ++ t ++ "'.")⟩
            else
              match a.args with
              | .nonObject => .crash (.typeErrorArgsNotMapping t)
              | .obj kvs =>
                if bindOk (sigOf t) kvs then
                  .next (.executed t a.args none (world t kvs))
                    ⟨s.i + 1, s.gi, "Observation: " ++ world t kvs⟩
                else .crash (.typeError t kvs)
          else
            .next (.unknownTool ("Error: Tool '" ++ t ++ "' not found."))
              ⟨s.i + 1, s.gi, "Observation: " ++
                ("Error: Tool '" ++ t ++ "' not found.")⟩
        | other =>
            -- line 91: a hashable non-string value is never a registry key
            .next (.unknownTool
                ("Error: Tool '" ++ other.displayName ++ "' not found."))
              ⟨s.i + 1, s.gi, "Observation: " ++
                ("Error: Tool '" ++ other.displayName ++ "' not found.")⟩
      | none =>
        -- lines 107-109: neither key present, corrective prompt, continue
        .next .invalidShape ⟨s.i + 1, s.gi, invalidShapePrompt⟩

/-- `for i in range(max_iterations)` (agent.py lines 64-111): the model's
responses are an oracle indexed by the number of calls made.  Returns
the run result (`​.error` models an uncaught exception escaping `run`)
together with the sequence of turn records. -/
def runLoop (world : String → List (String × String) → String)
    (script : Nat → ModelResponse) (gates : Nat → Bool) :
    Nat → LoopState → Except PyError String × List TurnRecord
  | 0, _ => (.ok exhaustedMessage, [])  -- line 111
  | fuel + 1, s =>
    match stepIter world gates s (script s.i) with
    | .done ans => (.ok ans, [.finalAnswer ans])
    | .crash e => (.error e, [])
    | .next rec s' =>
      let rest := runLoop world script gates fuel s'
      (rest.1, rec :: rest.2)

/-- `ReActAgent.run` (agent.py lines 40-111): `max_iterations = 10`,
iteration and gate counters start at zero, and the first message sent is
the user's prompt (line 61). -/
def ReActAgent.run (world : String → List (String × String) → String)
    (script : Nat → ModelResponse) (gates : Nat → Bool)
    (user_prompt : String) : Except PyError String × List TurnRecord :=
  runLoop world script gates 10 ⟨0, 0, user_prompt⟩

/-! ### The confirmation gate (ui.py lines 15-26) -/

/-- Python `str.strip()` on a whole string (kernel-reducible form). -/
def pyStrip (s : String) : String := String.mk (trimChars s.toList)

/-- Python `str.lower()` (kernel-reducible form). -/
def pyLower (s : String) : String := String.mk (s.toList.map Char.toLower)

/-- `rich.Prompt.ask(..., choices=["y","n"], default="n")` over the
operator's input stream: an empty line resolves to the default `"n"`,
a line whose stripped text is one of the choices resolves to it, any
other line is rejected and the prompt repeats.  `none`: the stream ended
with no resolution (the real prompt would still be blocked). -/
def promptAskYN : List String → Option String
  | [] => none
  | s :: rest =>
    if s = "" then some "n"
    else if pyStrip s = "y" ∨ pyStrip s = "n" then some (pyStrip s)
    else promptAskYN rest

/-- `TUI.get_user_confirmation` (ui.py lines 15-26): ask with choices
`y`/`n`, default `n`, then `return confirm.lower() == "y"`.  The tool
name and argument mapping are displayed only. -/
def TUI.get_user_confirmation (tool_name : String)
    (args : List (String × String)) (inputs : List String) : Option Bool :=
  let _ := (tool_name, args)  -- displayed in the panel, not consulted
  (promptAskYN inputs).map (fun confirm => pyLower confirm == "y")

/-- The gate consultation recorded in a turn, if any: the tool and
arguments shown to the operator and the operator's answer. -/
def gatePromptOf : TurnRecord → Option (String × ArgsVal × Bool)
  | .denied t args _ => some (t, args, false)
  | .executed t args (some b) _ => some (t, args, b)
  | _ => none

/-- A model response that cannot make the run raise: it is not a bare
non-object (line 79), any action value it carries is an object whose
tool value is hashable (lines 88/91), and whenever that tool is a
registered name the args value is an object binding to the tool's
signature (lines 99/102). -/
def NonCrashing (resp : ModelResponse) : Prop :=
  resp ≠ .nonObject ∧
  ∀ p av, resp = .obj p → p.action = some av →
    ∃ a, av = .obj a ∧ a.tool ≠ .unhashable ∧
      ∀ t, a.tool = .str t → t ∈ registryNames →
        ∃ kvs, a.args = .obj kvs ∧ bindOk (sigOf t) kvs = true

/-! ### C9: a final answer terminates the run immediately -/

/-- C9: whenever the parsed Decision of the current model turn contains a
`final_answer`, the run returns that answer string in the same
iteration, for any remaining budget `fuel + 1`; the trace ends with that
single record, so no further model turns or tool dispatches occur. -/
theorem final_answer_terminates_immediately
    (world : String → List (String × String) → String)
    (script : Nat → ModelResponse) (gates : Nat → Bool)
    (fuel : Nat) (s : LoopState) (p : Payload) (fa : String)
    (hresp : script s.i = .obj p) (hfa : p.final_answer = some fa) :
    runLoop world script gates (fuel + 1) s = (.ok fa, [.finalAnswer fa]) := by
  simp [runLoop, stepIter, hresp, hfa]

/-- Witness for C9 at a concrete script and budget. -/
theorem final_answer_terminates_immediately_witness :
    runLoop (fun _ _ => "") (fun _ => .obj ⟨none, none, some "done"⟩)
      (fun _ => false) 6 ⟨0, 0, "go"⟩ = (.ok "done", [.finalAnswer "done"]) :=
  final_answer_terminates_immediately _ _ _ 5 _ ⟨none, none, some "done"⟩ "done" rfl rfl

/-! ### C8: an unknown tool name is absorbed as an observation -/

/-- C8: a Decision naming a tool absent from the registry (an
unregistered string, a missing tool key shown as `None`, or any other
hashable non-string value) does not crash: the iteration produces an
observation string containing the unknown name, the next message
appended to the conversation is that observation, and the run continues
into the next iteration. -/
theorem unknown_tool_recovers
    (world : String → List (String × String) → String)
    (script : Nat → ModelResponse) (gates : Nat → Bool)
    (fuel : Nat) (s : LoopState) (p : Payload) (a : AgentAction)
    (hresp : script s.i = .obj p) (hfa : p.final_answer = none)
    (ha : p.action = some (.obj a)) (hh : a.tool ≠ .unhashable)
    (hreg : ∀ t, a.tool = .str t → t ∉ registryNames) :
    stepIter world gates s (script s.i)
      = .next (.unknownTool ("Error: Tool '" ++ a.tool.displayName ++ "' not found."))
          ⟨s.i + 1, s.gi,
           "Observation: " ++ ("Error: Tool '" ++ a.tool.displayName ++ "' not found.")⟩
    ∧ runLoop world script gates (fuel + 1) s
      = ((runLoop world script gates fuel
            ⟨s.i + 1, s.gi,
             "Observation: " ++ ("Error: Tool '" ++ a.tool.displayName ++ "' not found.")⟩).1,
         .unknownTool ("Error: Tool '" ++ a.tool.displayName ++ "' not found.")
           :: (runLoop world script gates fuel
                ⟨s.i + 1, s.gi,
                 "Observation: " ++ ("Error: Tool '" ++ a.tool.displayName ++ "' not found.")⟩).2) := by
  have key : stepIter world gates s (script s.i)
      = .next (.unknownTool ("Error: Tool '" ++ a.tool.displayName ++ "' not found."))
          ⟨s.i + 1, s.gi,
           "Observation: " ++ ("Error: Tool '" ++ a.tool.displayName ++ "' not found.")⟩ := by
    cases htool : a.tool with
    | str t => simp [stepIter, hresp, hfa, ha, htool, hreg t htool, ToolVal.displayName]
    | missing => simp [stepIter, hresp, hfa, ha, htool, ToolVal.displayName]
    | otherHashable shown => simp [stepIter, hresp, hfa, ha, htool, ToolVal.displayName]
    | unhashable => exact absurd htool hh
  refine ⟨key, ?_⟩
  simp [runLoop, key]

/-- Witness for C8: a script asking for the unregistered tool
`delete_everything`; the loop absorbs it and continues. -/
theorem unknown_tool_recovers_witness :
    stepIter (fun _ _ => "") (fun _ => true) ⟨0, 0, "go"⟩
        ((fun _ => .obj ⟨none, some (.obj ⟨.str "delete_everything", .obj []⟩), none⟩ :
          Nat → ModelResponse) 0)
      = .next (.unknownTool ("Error: Tool '"
            ++ (ToolVal.str "delete_everything").displayName ++ "' not found."))
          ⟨1, 0, "Observation: " ++ ("Error: Tool '"
            ++ (ToolVal.str "delete_everything").displayName ++ "' not found.")⟩ :=
  (unknown_tool_recovers (fun _ _ => "")
    (fun _ => .obj ⟨none, some (.obj ⟨.str "delete_everything", .obj []⟩), none⟩)
    (fun _ => true) 3 ⟨0, 0, "go"⟩
    ⟨none, some (.obj ⟨.str "delete_everything", .obj []⟩), none⟩
    ⟨.str "delete_everything", .obj []⟩ rfl rfl rfl (by decide)
    (by intro t ht; injection ht with h; rw [← h]; decide)).1

/-! ### C3: a denied dangerous action is absorbed, not executed -/

/-- C3: when the gate denies a dangerous dispatch, the capability is not
invoked at all (the iteration's outcome is identical for every world
oracle), the controller records a denial observation naming the tool,
appends it to the conversation as the next message, and the run
continues into the next iteration rather than erroring. -/
theorem denial_skips_capability_and_continues
    (world world' : String → List (String × String) → String)
    (script : Nat → ModelResponse) (gates : Nat → Bool)
    (fuel : Nat) (s : LoopState) (p : Payload) (a : AgentAction) (t : String)
    (hresp : script s.i = .obj p) (hfa : p.final_answer = none)
    (ha : p.action = some (.obj a)) (ht : a.tool = .str t)
    (hreg : t ∈ registryNames) (hdang : t ∈ dangerousTools)
    (hdeny : gates s.gi = false) :
    stepIter world gates s (script s.i)
      = .next (.denied t a.args ("User denied permission for tool '" ++ t ++ "'."))
          ⟨s.i + 1, s.gi + 1,
           "Observation: " ++ ("User denied permission for tool '" ++ t ++ "'.")⟩
    ∧ stepIter world gates s (script s.i) = stepIter world' gates s (script s.i)
    ∧ runLoop world script gates (fuel + 1) s
      = ((runLoop world script gates fuel
            ⟨s.i + 1, s.gi + 1,
             "Observation: " ++ ("User denied permission for tool '" ++ t ++ "'.")⟩).1,
         .denied t a.args ("User denied permission for tool '" ++ t ++ "'.")
           :: (runLoop world script gates fuel
                ⟨s.i + 1, s.gi + 1,
                 "Observation: " ++ ("User denied permission for tool '" ++ t ++ "'.")⟩).2) := by
  refine ⟨?_, ?_, ?_⟩
  · simp [stepIter, hresp, hfa, ha, ht, hreg, hdang, hdeny]
  · simp [stepIter, hresp, hfa, ha, ht, hreg, hdang, hdeny]
  · simp [runLoop, stepIter, hresp, hfa, ha, ht, hreg, hdang, hdeny]

/-- Witness for C3: a denied `execute_shell_command` dispatch. -/
theorem denial_skips_capability_and_continues_witness :
    stepIter (fun _ _ => "ran") (fun _ => false) ⟨0, 0, "go"⟩
        ((fun _ => .obj ⟨none,
            some (.obj ⟨.str "execute_shell_command", .obj [("command", "rm -rf /")]⟩), none⟩ :
          Nat → ModelResponse) 0)
      = .next (.denied "execute_shell_command" (.obj [("command", "rm -rf /")])
          ("User denied permission for tool '" ++ "execute_shell_command" ++ "'."))
          ⟨1, 1, "Observation: " ++
            ("User denied permission for tool '" ++ "execute_shell_command" ++ "'.")⟩ :=
  (denial_skips_capability_and_continues (fun _ _ => "ran") (fun _ _ => "other")
    (fun _ => .obj ⟨none,
      some (.obj ⟨.str "execute_shell_command", .obj [("command", "rm -rf /")]⟩), none⟩)
    (fun _ => false) 4 ⟨0, 0, "go"⟩
    ⟨none, some (.obj ⟨.str "execute_shell_command", .obj [("command", "rm -rf /")]⟩), none⟩
    ⟨.str "execute_shell_command", .obj [("command", "rm -rf /")]⟩ "execute_shell_command"
    rfl rfl rfl rfl (by decide) (by decide) rfl).1

/-! ### C4: the confirmation gate is consulted afresh every time -/

/-- Unfold one non-terminating iteration of the loop. -/
lemma runLoop_succ_next (world : String → List (String × String) → String)
    (script : Nat → ModelResponse) (gates : Nat → Bool)
    (fuel : Nat) (s s' : LoopState) (rec : TurnRecord)
    (h : stepIter world gates s (script s.i) = .next rec s') :
    runLoop world script gates (fuel + 1) s
      = ((runLoop world script gates fuel s').1,
         rec :: (runLoop world script gates fuel s').2) := by
  simp [runLoop, h]

/-- Any dispatch of a registered dangerous tool with well-formed
arguments consults the gate exactly once, recording the operator's
current answer, and advances both counters. -/
lemma dangerous_step (world : String → List (String × String) → String)
    (gates : Nat → Bool) (s : LoopState) (p : Payload) (a : AgentAction)
    (t : String) (kvs : List (String × String))
    (hfa : p.final_answer = none) (ha : p.action = some (.obj a))
    (ht : a.tool = .str t) (hreg : t ∈ registryNames) (hdang : t ∈ dangerousTools)
    (hargs : a.args = .obj kvs) (hbind : bindOk (sigOf t) kvs = true) :
    ∃ rec nextMsg, stepIter world gates s (.obj p) = .next rec ⟨s.i + 1, s.gi + 1, nextMsg⟩
      ∧ gatePromptOf rec = some (t, a.args, gates s.gi) := by
  cases hg : gates s.gi with
  | false =>
    refine ⟨.denied t a.args ("User denied permission for tool '" ++ t ++ "'."),
      "Observation: " ++ ("User denied permission for tool '" ++ t ++ "'."), ?_, ?_⟩
    · simp [stepIter, hfa, ha, ht, hreg, hdang, hg]
    · simp [gatePromptOf]
  | true =>
    refine ⟨.executed t a.args (some true) (world t kvs),
      "Observation: " ++ world t kvs, ?_, ?_⟩
    · simp [stepIter, hfa, ha, ht, hreg, hdang, hg, hargs, hbind]
    · simp [gatePromptOf]

/-- C4: two consecutive iterations dispatching the identical dangerous
tool with identical arguments each independently consult the gate: the
first prompt reads the operator's answer at index `s.gi`, the second the
answer at index `s.gi + 1`, whatever those answers are — neither a prior
approval nor a prior denial suppresses the later prompt. -/
theorem gate_reconsulted_every_dispatch
    (world : String → List (String × String) → String)
    (script : Nat → ModelResponse) (gates : Nat → Bool)
    (fuel : Nat) (s : LoopState) (p : Payload) (a : AgentAction)
    (t : String) (kvs : List (String × String))
    (h0 : script s.i = .obj p) (h1 : script (s.i + 1) = .obj p)
    (hfa : p.final_answer = none) (ha : p.action = some (.obj a)) (ht : a.tool = .str t)
    (hreg : t ∈ registryNames) (hdang : t ∈ dangerousTools)
    (hargs : a.args = .obj kvs) (hbind : bindOk (sigOf t) kvs = true) :
    ∃ r₁ r₂ rest,
      (runLoop world script gates (fuel + 1 + 1) s).2 = r₁ :: r₂ :: rest
      ∧ gatePromptOf r₁ = some (t, a.args, gates s.gi)
      ∧ gatePromptOf r₂ = some (t, a.args, gates (s.gi + 1)) := by
  obtain ⟨r₁, m₁, hstep₁, hgate₁⟩ :=
    dangerous_step world gates s p a t kvs hfa ha ht hreg hdang hargs hbind
  obtain ⟨r₂, m₂, hstep₂, hgate₂⟩ :=
    dangerous_step world gates ⟨s.i + 1, s.gi + 1, m₁⟩ p a t kvs hfa ha ht hreg hdang hargs hbind
  have h0' : stepIter world gates s (script s.i) = .next r₁ ⟨s.i + 1, s.gi + 1, m₁⟩ := by
    rw [h0]; exact hstep₁
  have h1' : stepIter world gates ⟨s.i + 1, s.gi + 1, m₁⟩
      (script (⟨s.i + 1, s.gi + 1, m₁⟩ : LoopState).i)
      = .next r₂ ⟨s.i + 1 + 1, s.gi + 1 + 1, m₂⟩ := by
    show stepIter world gates _ (script (s.i + 1)) = _
    rw [h1]; exact hstep₂
  rw [runLoop_succ_next world script gates (fuel + 1) s _ r₁ h0',
      runLoop_succ_next world script gates fuel _ _ r₂ h1']
  exact ⟨r₁, r₂, _, rfl, hgate₁, hgate₂⟩

/-- Witness for C4: the same shell command twice, operator denying the
first prompt and approving the second — both prompts occur. -/
theorem gate_reconsulted_every_dispatch_witness :
    ∃ r₁ r₂ rest,
      (runLoop (fun _ _ => "ok")
        (fun _ => .obj ⟨none,
          some (.obj ⟨.str "execute_shell_command", .obj [("command", "ls")]⟩), none⟩)
        (fun gi => gi == 1) (3 + 1 + 1) ⟨0, 0, "go"⟩).2 = r₁ :: r₂ :: rest
      ∧ gatePromptOf r₁
        = some ("execute_shell_command", .obj [("command", "ls")], (fun gi : Nat => gi == 1) 0)
      ∧ gatePromptOf r₂
        = some ("execute_shell_command", .obj [("command", "ls")], (fun gi : Nat => gi == 1) 1) :=
  gate_reconsulted_every_dispatch (fun _ _ => "ok")
    (fun _ => .obj ⟨none,
      some (.obj ⟨.str "execute_shell_command", .obj [("command", "ls")]⟩), none⟩)
    (fun gi => gi == 1) 3 ⟨0, 0, "go"⟩
    ⟨none, some (.obj ⟨.str "execute_shell_command", .obj [("command", "ls")]⟩), none⟩
    ⟨.str "execute_shell_command", .obj [("command", "ls")]⟩ "execute_shell_command"
    [("command", "ls")]
    rfl rfl rfl rfl rfl (by decide) (by decide) rfl (by decide)

/-! ### C10: exactly `write_file` and `execute_shell_command` are gated -/

/-- C10: among the registered tools, the ones routed through the
confirmation gate are exactly `write_file` and `execute_shell_command`:
dispatching either consults the gate (one prompt, recording the
operator's answer) before any execution, while dispatching any other
registered tool invokes the capability directly, with no prompt and the
prompt counter unchanged. -/
theorem gated_tools_exactly_write_and_shell
    (world : String → List (String × String) → String) (gates : Nat → Bool)
    (s : LoopState) (p : Payload) (a : AgentAction)
    (t : String) (kvs : List (String × String))
    (hfa : p.final_answer = none) (ha : p.action = some (.obj a)) (ht : a.tool = .str t)
    (hreg : t ∈ registryNames) (hargs : a.args = .obj kvs)
    (hbind : bindOk (sigOf t) kvs = true) :
    (t ∈ dangerousTools ↔ (t = "write_file" ∨ t = "execute_shell_command"))
    ∧ (t ∈ dangerousTools →
        ∃ rec nextMsg,
          stepIter world gates s (.obj p) = .next rec ⟨s.i + 1, s.gi + 1, nextMsg⟩
          ∧ gatePromptOf rec = some (t, a.args, gates s.gi))
    ∧ (t ∉ dangerousTools →
        stepIter world gates s (.obj p)
          = .next (.executed t a.args none (world t kvs))
              ⟨s.i + 1, s.gi, "Observation: " ++ world t kvs⟩) := by
  refine ⟨?_, ?_, ?_⟩
  · simp only [registryNames, List.mem_cons, List.not_mem_nil, or_false] at hreg
    rcases hreg with rfl | rfl | rfl | rfl | rfl <;> simp [dangerousTools]
  · intro hdang
    exact dangerous_step world gates s p a t kvs hfa ha ht hreg hdang hargs hbind
  · intro hndang
    simp [stepIter, hfa, ha, ht, hreg, hndang, hargs, hbind]

/-- Witness for C10 at the safe tool `read_file`: no prompt occurs. -/
theorem gated_tools_exactly_write_and_shell_witness :
    ("read_file" ∈ dangerousTools
      ↔ ("read_file" = "write_file" ∨ "read_file" = "execute_shell_command"))
    ∧ stepIter (fun _ _ => "content") (fun _ => false) ⟨0, 0, "go"⟩
        (.obj ⟨none, some (.obj ⟨.str "read_file", .obj [("filepath", "a.txt")]⟩), none⟩)
      = .next (.executed "read_file" (.obj [("filepath", "a.txt")]) none "content")
          ⟨1, 0, "Observation: " ++ "content"⟩ :=
  ⟨(gated_tools_exactly_write_and_shell (fun _ _ => "content") (fun _ => false) ⟨0, 0, "go"⟩
      ⟨none, some (.obj ⟨.str "read_file", .obj [("filepath", "a.txt")]⟩), none⟩
      ⟨.str "read_file", .obj [("filepath", "a.txt")]⟩ "read_file" [("filepath", "a.txt")]
      rfl rfl rfl (by decide) rfl (by decide)).1,
   (gated_tools_exactly_write_and_shell (fun _ _ => "content") (fun _ => false) ⟨0, 0, "go"⟩
      ⟨none, some (.obj ⟨.str "read_file", .obj [("filepath", "a.txt")]⟩), none⟩
      ⟨.str "read_file", .obj [("filepath", "a.txt")]⟩ "read_file" [("filepath", "a.txt")]
      rfl rfl rfl (by decide) rfl (by decide)).2.2 (by decide)⟩

/-! ### C5: the confirmation gate is fail-closed -/

/-- The prompt only ever resolves to one of its two choices. -/
lemma promptAskYN_choices (inputs : List String) (c : String)
    (h : promptAskYN inputs = some c) : c = "y" ∨ c = "n" := by
  induction inputs with
  | nil => simp [promptAskYN] at h
  | cons s rest ih =>
    rw [promptAskYN] at h
    split at h
    · exact .inr (Option.some.inj h).symm
    · split at h
      · rename_i hcond
        rcases hcond with hy | hn
        · exact .inl ((Option.some.inj h).symm.trans hy)
        · exact .inr ((Option.some.inj h).symm.trans hn)
      · exact ih h

/-- An affirmative resolution requires an explicit `y` line in the
operator's input stream. -/
lemma promptAskYN_yes (inputs : List String)
    (h : promptAskYN inputs = some "y") : ∃ s ∈ inputs, pyStrip s = "y" := by
  induction inputs with
  | nil => simp [promptAskYN] at h
  | cons s rest ih =>
    rw [promptAskYN] at h
    split at h
    · exact absurd (Option.some.inj h) (by decide)
    · split at h
      · exact ⟨s, by simp, Option.some.inj h⟩
      · obtain ⟨s', h₁, h₂⟩ := ih h
        exact ⟨s', by simp [h₁], h₂⟩

/-- C5 as amended: for every tool name and argument mapping, the gate
answers affirmatively only when the operator typed an explicit `y`; an
empty first input resolves to the default and denies; an input outside
the choices does **not** deny — the prompt is re-asked, so the outcome
is that of the remaining input stream, and invalid input can never
itself produce an approval. -/
theorem confirmation_fail_closed (tool_name : String)
    (args : List (String × String)) (inputs : List String) :
    (TUI.get_user_confirmation tool_name args inputs = some true →
      ∃ s ∈ inputs, pyStrip s = "y")
    ∧ (∀ rest, inputs = "" :: rest →
        TUI.get_user_confirmation tool_name args inputs = some false)
    ∧ (∀ s rest, inputs = s :: rest → s ≠ "" → ¬(pyStrip s = "y" ∨ pyStrip s = "n") →
        TUI.get_user_confirmation tool_name args inputs
          = TUI.get_user_confirmation tool_name args rest) := by
  refine ⟨?_, ?_, ?_⟩
  · intro h
    rw [TUI.get_user_confirmation] at h
    cases hp : promptAskYN inputs with
    | none => rw [hp] at h; simp at h
    | some c =>
      rw [hp] at h
      simp only [Option.map_some', Option.some.injEq, beq_iff_eq] at h
      rcases promptAskYN_choices inputs c hp with rfl | rfl
      · exact promptAskYN_yes inputs hp
      · exact absurd h (by decide)
  · rintro rest rfl
    rfl
  · rintro s rest rfl hs hy
    simp [TUI.get_user_confirmation, promptAskYN, hs, hy]

/-- Witness for C5: an invalid line followed by an explicit `y` yields
approval (hence a `y` is present); a lone empty line denies. -/
theorem confirmation_fail_closed_witness :
    (∃ s ∈ ["maybe", "y"], pyStrip s = "y")
    ∧ TUI.get_user_confirmation "write_file" [("filepath", "a")] [""] = some false :=
  ⟨(confirmation_fail_closed "write_file" [("filepath", "a")] ["maybe", "y"]).1 (by decide),
   (confirmation_fail_closed "write_file" [("filepath", "a")] [""]).2.1 [] rfl⟩

/-- Counterexample to C5: invalid operator input does not result in a
denial — `rich.Prompt.ask` rejects the line and asks again, so the
outcome defers to the rest of the stream: an invalid line followed by an
explicit `y` resolves to approval, where the claim requires a denial on
the invalid input. -/
theorem invalid_input_not_denied_counterexample :
    TUI.get_user_confirmation "execute_shell_command" [("command", "rm -rf /")]
      ["ok", "y"] = some true := by decide

/-! ### C1: payloads with both or neither of `action` / `final_answer` -/

/-- Counterexample to C1: a deserialized payload carrying **both** an
`action` and a `final_answer` is not rejected as malformed — the run
silently coerces it to the final-answer outcome and terminates on the
first iteration, returning the answer, because agent.py line 83 tests
`"final_answer" in parsed_response` before ever validating exclusivity. -/
theorem both_fields_coerced_counterexample :
    ReActAgent.run (fun _ _ => "")
      (fun _ => .obj ⟨none, some (.obj ⟨.str "list_files", .obj []⟩), some "done"⟩)
      (fun _ => false) "go"
      = (.ok "done", [.finalAnswer "done"]) := rfl

/-- C1 as amended: a payload with **neither** field is rejected and
triggers the corrective retry prompt without yielding any Decision
outcome, but a payload with **both** fields is silently coerced — the
`final_answer` key takes precedence, the run returns that answer and the
accompanying action is ignored, whatever it is. -/
theorem parse_shape_policy
    (world : String → List (String × String) → String) (gates : Nat → Bool)
    (s : LoopState) (p : Payload) :
    (p.final_answer = none → p.action = none →
      stepIter world gates s (.obj p)
        = .next .invalidShape ⟨s.i + 1, s.gi, invalidShapePrompt⟩)
    ∧ (∀ fa, p.final_answer = some fa → stepIter world gates s (.obj p) = .done fa) := by
  constructor
  · intro hfa ha
    simp [stepIter, hfa, ha]
  · intro fa hfa
    simp [stepIter, hfa]

/-- Witness for the amended C1: a neither-field payload retries; a
both-field payload returns the answer and drops the action. -/
theorem parse_shape_policy_witness :
    stepIter (fun _ _ => "") (fun _ => false) ⟨2, 1, "m"⟩ (.obj ⟨some "hm", none, none⟩)
      = .next .invalidShape ⟨3, 1, invalidShapePrompt⟩
    ∧ stepIter (fun _ _ => "") (fun _ => false) ⟨2, 1, "m"⟩
        (.obj ⟨none, some (.obj ⟨.str "write_file",
          .obj [("filepath", "a"), ("content", "b")]⟩), some "done"⟩)
      = .done "done" :=
  ⟨(parse_shape_policy (fun _ _ => "") (fun _ => false) ⟨2, 1, "m"⟩
      ⟨some "hm", none, none⟩).1 rfl rfl,
   (parse_shape_policy (fun _ _ => "") (fun _ => false) ⟨2, 1, "m"⟩
      ⟨none, some (.obj ⟨.str "write_file",
        .obj [("filepath", "a"), ("content", "b")]⟩), some "done"⟩).2
      "done" rfl⟩

/-! ### C6: exhaustion of the iteration budget -/

/-- Counterexample to C6: a model that never emits a `final_answer` but
once asks for `read_file` with an empty argument mapping makes
`tool_function(**tool_args)` raise `TypeError` (required parameter
`filepath` missing); the run ends in an uncaught exception on iteration
one — not after ten iterations, not with the exhaustion outcome, and
with no complete turn records. -/
theorem exhaustion_counterexample :
    ReActAgent.run (fun _ _ => "")
      (fun _ => .obj ⟨none, some (.obj ⟨.str "read_file", .obj []⟩), none⟩)
      (fun _ => true) "go"
      = (.error (.typeError "read_file" []), []) := rfl

/-- A model response that neither finishes nor crashes always yields a
normal next iteration. -/
lemma stepIter_next_of_safe (world : String → List (String × String) → String)
    (gates : Nat → Bool) (s : LoopState) (resp : ModelResponse)
    (hnf : ∀ p, resp = .obj p → p.final_answer = none)
    (hnc : NonCrashing resp) :
    ∃ rec s', stepIter world gates s resp = .next rec s' := by
  cases resp with
  | parseFail => exact ⟨.parseError, ⟨s.i + 1, s.gi, invalidJsonPrompt⟩, rfl⟩
  | nonObject => exact absurd rfl hnc.1
  | obj p =>
    have hfa : p.final_answer = none := hnf p rfl
    cases ha : p.action with
    | none =>
      exact ⟨.invalidShape, ⟨s.i + 1, s.gi, invalidShapePrompt⟩,
        by simp [stepIter, hfa, ha]⟩
    | some av =>
      obtain ⟨a, rfl, hh, hb⟩ := hnc.2 p av rfl ha
      cases htool : a.tool with
      | unhashable => exact absurd htool hh
      | missing =>
        exact ⟨.unknownTool ("Error: Tool '" ++ "None" ++ "' not found."),
          ⟨s.i + 1, s.gi, "Observation: " ++
            ("Error: Tool '" ++ "None" ++ "' not found.")⟩,
          by simp [stepIter, hfa, ha, htool, ToolVal.displayName]⟩
      | otherHashable shown =>
        exact ⟨.unknownTool ("Error: Tool '" ++ shown ++ "' not found."),
          ⟨s.i + 1, s.gi, "Observation: " ++
            ("Error: Tool '" ++ shown ++ "' not found.")⟩,
          by simp [stepIter, hfa, ha, htool, ToolVal.displayName]⟩
      | str t =>
        by_cases hreg : t ∈ registryNames
        · obtain ⟨kvs, hargs, hbind⟩ := hb t htool hreg
          by_cases hdang : t ∈ dangerousTools
          · cases hg : gates s.gi with
            | false =>
              exact ⟨.denied t a.args
                  ("User denied permission for tool '" ++ t ++ "'."),
                ⟨s.i + 1, s.gi + 1, "Observation: " ++
                  ("User denied permission for tool '" ++ t ++ "'.")⟩,
                by simp [stepIter, hfa, ha, htool, hreg, hdang, hg]⟩
            | true =>
              exact ⟨.executed t a.args (some true) (world t kvs),
                ⟨s.i + 1, s.gi + 1, "Observation: " ++ world t kvs⟩,
                by simp [stepIter, hfa, ha, htool, hreg, hdang, hg, hargs, hbind]⟩
          · exact ⟨.executed t a.args none (world t kvs),
              ⟨s.i + 1, s.gi, "Observation: " ++ world t kvs⟩,
              by simp [stepIter, hfa, ha, htool, hreg, hdang, hargs, hbind]⟩
        · exact ⟨.unknownTool ("Error: Tool '" ++ t ++ "' not found."),
            ⟨s.i + 1, s.gi, "Observation: " ++
              ("Error: Tool '" ++ t ++ "' not found.")⟩,
            by simp [stepIter, hfa, ha, htool, hreg, ToolVal.displayName]⟩

/-- C6 as amended: for an iteration ceiling of `N` (ten in
`ReActAgent.run`) and any model that never emits a `final_answer` and
whose replies never take one of the uncaught-exception shapes — a
non-object JSON payload (line 79), an action value that is not an
object (line 88), an unhashable tool value (line 91), or a registered
tool with an args value that is not an object or does not bind to the
tool's signature (lines 99/102); `NonCrashing` is exactly this
well-shapedness — the run terminates after exactly `N` iterations,
returning the fixed exhaustion sentinel (a normal value, not an
exception) and having produced exactly `N` turn records. -/
theorem exhaustion_after_budget
    (world : String → List (String × String) → String)
    (script : Nat → ModelResponse) (gates : Nat → Bool)
    (N : Nat) (s : LoopState) (prompt : String)
    (hnf : ∀ i p, script i = .obj p → p.final_answer = none)
    (hnc : ∀ i, NonCrashing (script i)) :
    (runLoop world script gates N s).1 = .ok exhaustedMessage
    ∧ (runLoop world script gates N s).2.length = N
    ∧ (ReActAgent.run world script gates prompt).1 = .ok exhaustedMessage
    ∧ (ReActAgent.run world script gates prompt).2.length = 10 := by
  have main : ∀ (M : Nat) (st : LoopState),
      (runLoop world script gates M st).1 = .ok exhaustedMessage
      ∧ (runLoop world script gates M st).2.length = M := by
    intro M
    induction M with
    | zero => intro st; simp [runLoop]
    | succ M ih =>
      intro st
      obtain ⟨rec, st', hstep⟩ := stepIter_next_of_safe world gates st (script st.i)
        (fun p hp => hnf st.i p hp) (hnc st.i)
      rw [runLoop_succ_next world script gates M st st' rec hstep]
      exact ⟨(ih st').1, by simp [(ih st').2]⟩
  exact ⟨(main N s).1, (main N s).2, (main 10 ⟨0, 0, prompt⟩).1, (main 10 ⟨0, 0, prompt⟩).2⟩

/-- Witness for the amended C6: a model that always answers with an
empty-shaped payload exhausts the budget. -/
theorem exhaustion_after_budget_witness :
    (runLoop (fun _ _ => "") (fun _ => .obj ⟨none, none, none⟩)
        (fun _ => false) 3 ⟨0, 0, "go"⟩).1 = .ok exhaustedMessage
    ∧ (runLoop (fun _ _ => "") (fun _ => .obj ⟨none, none, none⟩)
        (fun _ => false) 3 ⟨0, 0, "go"⟩).2.length = 3
    ∧ (ReActAgent.run (fun _ _ => "") (fun _ => .obj ⟨none, none, none⟩)
        (fun _ => false) "go").1 = .ok exhaustedMessage
    ∧ (ReActAgent.run (fun _ _ => "") (fun _ => .obj ⟨none, none, none⟩)
        (fun _ => false) "go").2.length = 10 :=
  exhaustion_after_budget (fun _ _ => "") (fun _ => .obj ⟨none, none, none⟩)
    (fun _ => false) 3 ⟨0, 0, "go"⟩ "go"
    (by intro i p hp; injection hp with h; rw [← h])
    (by
      intro i
      refine ⟨by simp, ?_⟩
      intro p av hp hav
      injection hp with h
      rw [← h] at hav
      simp at hav)

/-! ### C7: capability failures and the dispatch boundary -/

/-- C7 is violated by the code: `tool_function(**tool_args)` at agent.py
lines 99/102 is not wrapped in any `try`, so an argument mapping that
does not match the capability's signature (here: unexpected keyword
`path` for `read_file`) raises `TypeError` straight past the loop
controller and terminates the run, instead of being converted into an
observation string.  (The capabilities' own bodies do convert their
internal failures to strings; the dispatch step converts nothing.) -/
theorem dispatch_typeerror_escapes_run :
    ReActAgent.run (fun _ _ => "")
      (fun _ => .obj ⟨none, some (.obj ⟨.str "read_file", .obj [("path", "x")]⟩), none⟩)
      (fun _ => true) "go"
      = (.error (.typeError "read_file" [("path", "x")]), []) := rfl

/-! ### C2: what extraction actually does to fence markers -/

lemma stripAll_nil (pat : List Char) : stripAll pat [] = [] := by simp [stripAll]

lemma isPrefixOf_cons_ne {c₀ c : Char} (tail rest : List Char) (hne : c₀ ≠ c) :
    List.isPrefixOf (c₀ :: tail) (c :: rest) = false := by
  have h : (c₀ == c) = false := by simp [hne]
  simp [List.isPrefixOf, h]

lemma isPrefixOf_eq_false_of_head_notMem {c₀ : Char} (tail : List Char)
    {l : List Char} (h : c₀ ∉ l) : List.isPrefixOf (c₀ :: tail) l = false := by
  cases l with
  | nil => rfl
  | cons c rest =>
    exact isPrefixOf_cons_ne tail rest (fun e => h (by simp [e]))

lemma stripAll_cons_of_head_ne (c₀ : Char) (tail : List Char) (c : Char)
    (rest : List Char) (hne : c₀ ≠ c) :
    stripAll (c₀ :: tail) (c :: rest) = c :: stripAll (c₀ :: tail) rest := by
  simp only [stripAll]
  rw [if_neg]
  rintro ⟨-, hpre⟩
  rw [isPrefixOf_cons_ne tail rest hne] at hpre
  exact Bool.false_ne_true hpre

lemma stripAll_append_of_head_notMem (c₀ : Char) (tail : List Char)
    (l₁ l₂ : List Char) (h : c₀ ∉ l₁) :
    stripAll (c₀ :: tail) (l₁ ++ l₂) = l₁ ++ stripAll (c₀ :: tail) l₂ := by
  induction l₁ with
  | nil => simp
  | cons c rest ih =>
    have hne : c₀ ≠ c := fun e => h (by simp [e])
    rw [List.cons_append, stripAll_cons_of_head_ne c₀ tail c _ hne,
        ih (fun hm => h (by simp [hm])), List.cons_append]

lemma stripAll_eq_self_of_head_notMem (c₀ : Char) (tail : List Char)
    (l : List Char) (h : c₀ ∉ l) : stripAll (c₀ :: tail) l = l := by
  have h2 := stripAll_append_of_head_notMem c₀ tail l [] h
  simpa [stripAll_nil] using h2

lemma stripAll_cancel (c₀ : Char) (tail l : List Char) :
    stripAll (c₀ :: tail) ((c₀ :: tail) ++ l) = stripAll (c₀ :: tail) l := by
  rw [List.cons_append]
  simp only [stripAll]
  rw [if_pos]
  · congr 1
    simp [List.drop_left]
  · refine ⟨by simp, ?_⟩
    rw [List.isPrefixOf_iff_prefix, List.cons_prefix_cons]
    exact ⟨rfl, List.prefix_append tail l⟩

lemma trimChars_eq_self (l : List Char) (h : ∀ c ∈ l, c.isWhitespace = false) :
    trimChars l = l := by
  have h₁ : l.dropWhile Char.isWhitespace = l := by
    cases l with
    | nil => rfl
    | cons c rest => simp [List.dropWhile_cons, h c (by simp)]
  rw [trimChars, h₁]
  have h₂ : l.reverse.dropWhile Char.isWhitespace = l.reverse := by
    cases hr : l.reverse with
    | nil => rfl
    | cons c rest =>
      have hc : c ∈ l := by rw [← List.mem_reverse, hr]; simp
      simp [List.dropWhile_cons, h c hc]
  rw [h₂, List.reverse_reverse]

lemma stripAll_fence_append (l₁ l₂ : List Char) (h : '`' ∉ l₁) :
    stripAll fence (l₁ ++ l₂) = l₁ ++ stripAll fence l₂ :=
  stripAll_append_of_head_notMem '`' _ l₁ l₂ h

lemma stripAll_fenceJson_append (l₁ l₂ : List Char) (h : '`' ∉ l₁) :
    stripAll fenceJson (l₁ ++ l₂) = l₁ ++ stripAll fenceJson l₂ :=
  stripAll_append_of_head_notMem '`' _ l₁ l₂ h

lemma stripAll_fence_eq_self (l : List Char) (h : '`' ∉ l) :
    stripAll fence l = l :=
  stripAll_eq_self_of_head_notMem '`' _ l h

lemma stripAll_fenceJson_eq_self (l : List Char) (h : '`' ∉ l) :
    stripAll fenceJson l = l :=
  stripAll_eq_self_of_head_notMem '`' _ l h

lemma stripAll_fence_cancel (l : List Char) :
    stripAll fence (fence ++ l) = stripAll fence l :=
  stripAll_cancel '`' _ l

lemma stripAll_fenceJson_cancel (l : List Char) :
    stripAll fenceJson (fenceJson ++ l) = stripAll fenceJson l :=
  stripAll_cancel '`' _ l

lemma stripAll_fenceJson_keeps (b : List Char) (hb : '`' ∉ b)
    (hjson : List.isPrefixOf ['j', 's', 'o', 'n'] b = false) :
    stripAll fenceJson (fence ++ b) = fence ++ b := by
  have h1 : List.isPrefixOf fenceJson ('`' :: '`' :: '`' :: b) = false := by
    simp only [fenceJson, List.isPrefixOf, beq_self_eq_true, Bool.true_and]
    exact hjson
  have h2 : List.isPrefixOf fenceJson ('`' :: '`' :: b) = false := by
    simp only [fenceJson, List.isPrefixOf, beq_self_eq_true, Bool.true_and]
    exact isPrefixOf_eq_false_of_head_notMem _ hb
  have h3 : List.isPrefixOf fenceJson ('`' :: b) = false := by
    simp only [fenceJson, List.isPrefixOf, beq_self_eq_true, Bool.true_and]
    exact isPrefixOf_eq_false_of_head_notMem _ hb
  have h4 : stripAll fenceJson b = b := stripAll_fenceJson_eq_self b hb
  show stripAll fenceJson ('`' :: '`' :: '`' :: b) = '`' :: '`' :: '`' :: b
  simp [stripAll, h1, h2, h3, h4]

lemma extract_core_middle (a b : List Char) (ha : '`' ∉ a) (hb : '`' ∉ b)
    (hjson : List.isPrefixOf ['j', 's', 'o', 'n'] b = false)
    (haw : ∀ c ∈ a, c.isWhitespace = false) (hbw : ∀ c ∈ b, c.isWhitespace = false) :
    extractPayloadChars (a ++ fence ++ b) = a ++ b := by
  have hall : ∀ c ∈ a ++ fence ++ b, c.isWhitespace = false := by
    intro c hc
    rcases List.mem_append.1 hc with hc' | hc'
    · rcases List.mem_append.1 hc' with h | h
      · exact haw c h
      · simp only [fence, List.mem_cons, List.not_mem_nil, or_false, or_self] at h
        rw [h]; rfl
    · exact hbw c hc'
  have hab : ∀ c ∈ a ++ b, c.isWhitespace = false := by
    intro c hc
    rcases List.mem_append.1 hc with h | h
    · exact haw c h
    · exact hbw c h
  rw [extractPayloadChars, trimChars_eq_self _ hall, List.append_assoc,
      stripAll_fenceJson_append a _ ha, stripAll_fenceJson_keeps b hb hjson,
      stripAll_fence_append a _ ha, stripAll_fence_cancel b,
      stripAll_fence_eq_self b hb]
  exact trimChars_eq_self _ hab

lemma extract_core_wrapped (p : List Char) (hp : '`' ∉ p)
    (hpw : ∀ c ∈ p, c.isWhitespace = false) :
    extractPayloadChars (fenceJson ++ p ++ fence) = p := by
  have hall : ∀ c ∈ fenceJson ++ p ++ fence, c.isWhitespace = false := by
    intro c hc
    rcases List.mem_append.1 hc with hc' | hc'
    · rcases List.mem_append.1 hc' with h | h
      · simp only [fenceJson, List.mem_cons, List.not_mem_nil, or_false] at h
        rcases h with rfl | rfl | rfl | rfl | rfl | rfl | rfl <;> rfl
      · exact hpw c h
    · simp only [fence, List.mem_cons, List.not_mem_nil, or_false, or_self] at hc'
      rw [hc']; rfl
  rw [extractPayloadChars, trimChars_eq_self _ hall, List.append_assoc,
      stripAll_fenceJson_cancel, stripAll_fenceJson_append p fence hp]
  have hff : stripAll fenceJson fence = fence := by simp +decide [stripAll, fence, fenceJson]
  rw [hff, stripAll_fence_append p fence hp]
  have hf2 : stripAll fence fence = [] := by simp +decide [stripAll, fence]
  rw [hf2, List.append_nil]
  exact trimChars_eq_self p hpw

/-- Counterexample to C2: extraction does not strip just one enclosing
wrapper.  First conjunct: the input has no enclosing wrapper at all, yet
the fence marker inside the payload's string value is deleted (the claim
says markers inside the payload are left intact).  Second conjunct:
surrounding commentary is left in place, so a commentary-wrapped payload
is not reduced to a deserializable payload — only the markers are
removed, everywhere. -/
theorem one_wrapper_strip_counterexample :
    extractJson "\x7b\"a\": \"x```y\"\x7d" = "\x7b\"a\": \"xy\"\x7d"
    ∧ extractJson "Sure: ```json\x7b\"a\": 1\x7d``` done"
      = "Sure: \x7b\"a\": 1\x7d done" := by
  constructor
  · simp +decide [extractJson, extractPayloadChars, trimChars, stripAll, fence, fenceJson]
  · simp +decide [extractJson, extractPayloadChars, trimChars, stripAll, fence, fenceJson]

/-- C2 as amended: extraction deletes every occurrence of the fence
markers (first each `` ```json ``, then each `` ``` ``) anywhere in the
text and trims surrounding whitespace, attempting no other repair: text
around the markers — commentary included — stays, and a marker standing
in the middle of the payload is deleted just like an enclosing one.
Stated for marker-free, whitespace-free surrounding pieces `a`, `b` and
payload `p`: a fence between `a` and `b` is deleted and both sides kept,
and a single `` ```json ``/`` ``` `` wrapper around `p` is stripped
entirely. -/
theorem extraction_removes_all_fences (a b p : String)
    (haw : ∀ c ∈ a.toList, c ≠ '`' ∧ c.isWhitespace = false)
    (hbw : ∀ c ∈ b.toList, c ≠ '`' ∧ c.isWhitespace = false)
    (hpw : ∀ c ∈ p.toList, c ≠ '`' ∧ c.isWhitespace = false)
    (hjson : List.isPrefixOf ['j', 's', 'o', 'n'] b.toList = false) :
    extractJson (a ++ "```" ++ b) = a ++ b
    ∧ extractJson ("```json" ++ p ++ "```") = p := by
  constructor
  · have ha' : '`' ∉ a.toList := fun hm => (haw _ hm).1 rfl
    have hb' : '`' ∉ b.toList := fun hm => (hbw _ hm).1 rfl
    have h := extract_core_middle a.toList b.toList ha' hb' hjson
      (fun c hc => (haw c hc).2) (fun c hc => (hbw c hc).2)
    apply String.ext
    show extractPayloadChars (a ++ "```" ++ b).toList = (a ++ b).data
    have htl : (a ++ "```" ++ b).toList = a.toList ++ fence ++ b.toList := by
      simp only [String.toList, String.data_append]
      rfl
    rw [htl, h, String.data_append]
    rfl
  · have hp' : '`' ∉ p.toList := fun hm => (hpw _ hm).1 rfl
    have h := extract_core_wrapped p.toList hp' (fun c hc => (hpw c hc).2)
    apply String.ext
    show extractPayloadChars ("```json" ++ p ++ "```").toList = p.data
    have htl : ("```json" ++ p ++ "```").toList = fenceJson ++ p.toList ++ fence := by
      simp only [String.toList, String.data_append]
      rfl
    rw [htl, h]
    rfl

/-- Witness for the amended C2 at concrete commentary and payload. -/
theorem extraction_removes_all_fences_witness :
    extractJson ("Note:" ++ "```" ++ "done") = "Note:" ++ "done"
    ∧ extractJson ("```json" ++ "42" ++ "```") = "42" :=
  extraction_removes_all_fences "Note:" "done" "42"
    (by decide) (by decide) (by decide) (by decide)
